import Mathlib

/-!
Shallow embedding of the mirror synchronization engine of the mc client:
the content differencer work-item generator (deltaSourceTargets), the
watch-mode event handlers of the newer engine, the legacy session engine
(doMirror, doMirrorFake, doPrepareMirrorURLs, doMirrorSession) and their
data model. Definitions are translated from the Go source; collaborators
whose defining code is not part of the source tree are modelled from the
specification and marked as such in their doc comments. Partiality of the
Go code (nil-pointer dereferences, failing type assertions) is modelled
with Option results, where none stands for a runtime panic.
-/

namespace Mc

/-- Content metadata of one listed object, after the clientContent struct of
the source: the URL string, the size in bytes and, in the legacy engine, the
Name field. -/
structure ClientContent where
  urlStr : String := ""
  Size : Int := 0
  Name : String := ""
deriving Repr, DecidableEq, BEq

/-- Kinds of errors carried by work items, after the error constructors the
mirror code applies: errInvalidTarget, errOverWriteNotAllowed, listing
errors from the differencer, client construction and stat failures, network
errors and generic transfer failures. -/
inductive ErrKind where
  | invalidTarget (url : String)
  | overWriteNotAllowed (url : String)
  | listFailed (msg : String)
  | clientFailed (url : String)
  | statFailed (url : String)
  | netFailed (msg : String)
  | transferFailed (msg : String)
deriving Repr, DecidableEq, BEq

/-- Embedding of a probe.Error value: the underlying error kind plus the
number of trace annotations attached to it. In Go, Trace mutates the same
error object by appending caller frames and returns it; here the counter
records those annotations while the kind identifies the error itself. -/
structure ProbeError where
  kind : ErrKind
  traceDepth : Nat := 0
deriving Repr, DecidableEq, BEq

/-- The Trace method of probe.Error: the same underlying error with one more
trace annotation attached. -/
def ProbeError.traceAnn (e : ProbeError) : ProbeError :=
  { e with traceDepth := e.traceDepth + 1 }

/-- Whether a probe error is of a network class (net.Error or a net.OpError
in the Go source), which is what the legacy status loop matches on before
saving the session. -/
def ProbeError.isNet (e : ProbeError) : Bool :=
  match e.kind with
  | .netFailed _ => true
  | _ => false

/-- Difference classification of one compared path. The constants
differInNone, differInSize, differInTime, differInType and differInSecond
are referenced by deltaSourceTargets in the source; the defining file of the
enumeration is not in the tree, so the enumeration itself is modelled from
the spec closed enumeration: identical, differs-in-size, differs-in-time,
differs-in-type, only-in-source (differInFirst) and only-in-target
(differInSecond). -/
inductive DiffType where
  | differInNone
  | differInSize
  | differInTime
  | differInType
  | differInFirst
  | differInSecond
deriving Repr, DecidableEq, BEq

/-- One successful entry of the differencer stream, with the fields of the
source diff value that deltaSourceTargets reads: dType, sourceContent,
sourceURL and targetURL. -/
structure DiffItem where
  dType : DiffType
  sourceContent : ClientContent
  sourceURLStr : String
  targetURLStr : String
deriving Repr, DecidableEq, BEq

/-- One element of the differencer stream: either a listing error or a
classified entry. In the source the diff value carries an err field that is
checked first; the two cases are split here. -/
inductive DiffEntry where
  | listErr (e : ProbeError)
  | item (d : DiffItem)
deriving Repr, DecidableEq, BEq

/-- Work item of the newer generator, after the mirrorURLs struct of the
source: aliases, optional source and target content and an optional
error. -/
structure MirrorURLs where
  SourceAlias : String := ""
  SourceContent : Option ClientContent := none
  TargetAlias : String := ""
  TargetContent : Option ClientContent := none
  Error : Option ProbeError := none
deriving Repr, DecidableEq, BEq

/-- Embedding of strings.TrimPrefix of the Go standard library: drop the
given leading part when present, otherwise return the string unchanged.
Implemented over the character lists backing String so that it evaluates
inside the kernel. -/
def trimPfx (s pre : String) : String :=
  if pre.data.isPrefixOf s.data then { data := s.data.drop pre.data.length } else s

/-- Modelled from the spec: urlJoinPath, whose defining file is not in the
tree, joins the target directory URL (which deltaSourceTargets has already
terminated with a separator) and the relative suffix of the source entry. -/
def urlJoinPath (dir suffix : String) : String :=
  dir ++ suffix

/-- The isEmpty method on mirrorURLs, translated line by line. The second
condition of the source reads the Size field through the SourceContent
pointer unconditionally, so when SourceContent is nil and the first
condition has failed the method dereferences a nil pointer; that panic is
the none result. -/
def MirrorURLs.isEmpty (m : MirrorURLs) : Option Bool :=
  if m.SourceContent = none ∧ m.TargetContent = none ∧ m.Error = none then
    some true
  else
    match m.SourceContent with
    | none => none
    | some sc =>
      if sc.Size = 0 ∧ m.TargetContent = none ∧ m.Error = none then some true
      else some false

/-- The work item a successful copy decision of deltaSourceTargets emits:
the source content is carried over and the target content is the target
directory joined with the source suffix, exactly as built at the end of the
loop body in the source. -/
def deltaCopyItem (sourceURL targetURL sourceAlias targetAlias : String)
    (sc : ClientContent) : MirrorURLs :=
  { SourceAlias := sourceAlias
    SourceContent := some sc
    TargetAlias := targetAlias
    TargetContent := some { urlStr := urlJoinPath targetURL (trimPfx sc.urlStr sourceURL) } }

/-- Loop body of deltaSourceTargets for one differencer entry: the decision
whether to emit an error item, a copy item, or nothing. The chain of
conditions mirrors the source statement for statement, including the
operator precedence of the first condition, which in Go parses as
(isRemove and isForce and time-difference) or size-difference. -/
def deltaStep (sourceURL targetURL sourceAlias targetAlias : String)
    (isForce isFake isRemove : Bool) : DiffEntry → Option MirrorURLs
  | .listErr e => some { Error := some e.traceAnn }
  | .item d =>
    let differ := d.dType
    if (isRemove && isForce && (differ == .differInTime)) || (differ == .differInSize) then
      none
    else if isRemove && isForce && (differ == .differInSecond) then
      none
    else if (differ == .differInNone) || (differ == .differInSecond) then
      none
    else if differ == .differInType then
      some { Error := some { kind := .invalidTarget d.targetURLStr } }
    else if (differ == .differInSize) && !isForce && !isFake then
      some { Error := some { kind := .overWriteNotAllowed d.sourceURLStr } }
    else
      some (deltaCopyItem sourceURL targetURL sourceAlias targetAlias d.sourceContent)

/-- The differencer-driven part of deltaSourceTargets: every entry of the
difference stream is put through the loop body and the emitted work items
are collected in order. -/
def deltaSourceTargets (sourceURL targetURL sourceAlias targetAlias : String)
    (isForce isFake isRemove : Bool) (entries : List DiffEntry) : List MirrorURLs :=
  entries.filterMap (deltaStep sourceURL targetURL sourceAlias targetAlias isForce isFake isRemove)

/-- Work item of the newer engine in src/cmd/mirror-main.go, after the URLs
struct its code reads and writes: aliases, optional contents, running
totals and an optional error. The struct definition file is not in the
tree; the fields are exactly those the mirror code uses and the spec Work
Item lists. -/
structure URLs where
  SourceAlias : String := ""
  SourceContent : Option ClientContent := none
  TargetAlias : String := ""
  TargetContent : Option ClientContent := none
  TotalCount : Int := 0
  TotalSize : Int := 0
  Error : Option ProbeError := none
deriving Repr, DecidableEq, BEq

/-- The WithError method on URLs: the same item with the Error field set. -/
def URLs.WithError (u : URLs) (e : Option ProbeError) : URLs :=
  { u with Error := e }

/-- Embedding of filepath.Join as the mirror code uses it on an alias and a
path: the alias, when present, is glued in front of the path. -/
def pathJoin (aliasPart path : String) : String :=
  if aliasPart = "" then path else aliasPart ++ "/" ++ path

/-- Operations the status sink and the progress surface receive: progress
advances, captions, success messages, removal messages, error lines and
total adjustments. -/
inductive StatusAction where
  | addProgress (n : Int)
  | setCaption (s : String)
  | printMirrorMsg (source target : String) (size totalCount totalSize : Int)
  | printRmMsg (target : String)
  | errorLineCopy (url : String)
  | errorLineRemove (url : String)
  | errorGet (n : Int)
  | errorPut (n : Int)
  | setTotal (n : Int)
deriving Repr, DecidableEq, BEq

/-- Transfer-level input and output operations against the storage client:
source reads, target writes, removals and stat probes. -/
inductive TransferAction where
  | getSrc (name : String)
  | putTgts (targets : List String) (length : Int)
  | uploadTgt (source target : String)
  | rmTgt (target : String)
  | statSrc (path : String)
  | statTgt (path : String)
deriving Repr, DecidableEq, BEq

/-- Whether a transfer action mutates the target by removing an object. -/
def TransferAction.isRemoval : TransferAction → Bool
  | .rmTgt _ => true
  | _ => false

/-- Result of one call of the doMirror method of the newer engine: the
status item it returns, the transfer operations it performed and the status
surface operations it issued. -/
structure CmdMirrorResult where
  ret : URLs
  io : List TransferAction := []
  statusOps : List StatusAction := []
deriving Repr, DecidableEq, BEq

/-- The doMirror method of the newer engine, translated branch by branch:
an item already carrying an error is returned with the error traced and no
operation performed; with the fake flag the progress surface advances by
the source size and the item is returned without error; otherwise the
caption and the mirror message are issued and the upload write path runs,
whose outcome is the uploadErr parameter standing for the collaborator
uploadSourceToTargetURL. Reading the size or URL through a missing content
pointer is the nil-dereference panic, modelled as none. -/
def cmdDoMirror (isFake : Bool) (uploadErr : Option ProbeError) (s : URLs) :
    Option CmdMirrorResult :=
  match s.Error with
  | some e => some { ret := s.WithError (some e.traceAnn) }
  | none =>
    if isFake then
      match s.SourceContent with
      | none => none
      | some sc => some { ret := s.WithError none, statusOps := [.addProgress sc.Size] }
    else
      match s.SourceContent, s.TargetContent with
      | some sc, some tc =>
        some { ret := { s with Error := uploadErr }
               io := [.uploadTgt sc.urlStr tc.urlStr]
               statusOps := [.setCaption (sc.urlStr ++ ": "),
                 .printMirrorMsg (pathJoin s.SourceAlias sc.urlStr)
                   (pathJoin s.TargetAlias tc.urlStr) sc.Size s.TotalCount s.TotalSize] }
      | _, _ => none

/-- The doRemove method of the newer engine: with the fake flag the item is
returned unchanged with a nil error and nothing is removed; otherwise the
target path with its alias is removed through removeSingle, whose outcome
is the removeRes parameter standing for that collaborator, and the item is
returned with that outcome as its error. -/
def cmdDoRemove (isFake : Bool) (removeRes : Option ProbeError) (s : URLs) :
    Option CmdMirrorResult :=
  if isFake then
    some { ret := s.WithError none }
  else
    match s.TargetContent with
    | none => none
    | some tc =>
      some { ret := s.WithError removeRes, io := [.rmTgt (pathJoin s.TargetAlias tc.urlStr)] }

/-- One iteration of the startStatus goroutine on a received item: error
items produce an error line against the source URL when a source content is
present and against the target URL otherwise, and source-less items with a
target produce the removal message. Reading the target URL when both
contents are missing is the nil-dereference panic, modelled as none. -/
def startStatusStep (u : URLs) : Option (List StatusAction) :=
  let errPart : Option (List StatusAction) :=
    match u.Error with
    | none => some []
    | some _ =>
      match u.SourceContent with
      | some sc => some [.errorLineCopy sc.urlStr]
      | none =>
        match u.TargetContent with
        | some tc => some [.errorLineRemove tc.urlStr]
        | none => none
  match errPart with
  | none => none
  | some es =>
    match u.SourceContent with
    | some _ => some es
    | none =>
      match u.TargetContent with
      | some tc => some (es ++ [.printRmMsg (pathJoin u.TargetAlias tc.urlStr)])
      | none => some es

/-- The dispatch a harvested one-shot item receives at the end of the
startMirror loop: items with a source content go to doMirror, items with
only a target content go to doRemove when both the remove and force flags
are set, and every other item is dropped. -/
inductive DispatchKind where
  | toMirror
  | toRemove
  | dropped
deriving Repr, DecidableEq, BEq

/-- Dispatch decision of the startMirror loop body for one harvested item,
after the final if-chain of its source. -/
def startMirrorDispatch (isRemove isForce : Bool) (u : URLs) : DispatchKind :=
  if u.SourceContent.isSome then .toMirror
  else if u.TargetContent.isSome && isRemove && isForce then .toRemove
  else .dropped

/-- Outcome of one watchMirror event handler iteration: the items sent on
the status channel in order, whether doMirror or doRemove ran for the
event, the transfer operations performed, whether the handler returned and
so ended the watch loop, and whether it panicked. -/
structure WatchStepResult where
  sent : List URLs := []
  mirrored : Bool := false
  removed : Bool := false
  io : List TransferAction := []
  loopEnded : Bool := false
  panicked : Bool := false
deriving Repr, DecidableEq, BEq

/-- The work item watchMirror builds for a Create event before consulting
any client: source and target contents carry only the event and target
URLs, with a zero size. -/
def mkCreateMirrorURL (sourceAlias targetAlias srcPath tgtPath : String) : URLs :=
  { SourceAlias := sourceAlias
    SourceContent := some { urlStr := srcPath }
    TargetAlias := targetAlias
    TargetContent := some { urlStr := tgtPath } }

/-- The work item watchMirror builds for a Remove event: no source content
and a target content carrying the target URL, with the running totals
attached. -/
def mkRemoveMirrorURL (sourceAlias targetAlias tgtPath : String)
    (totalObjects totalBytes : Int) : URLs :=
  { SourceAlias := sourceAlias
    TargetAlias := targetAlias
    TargetContent := some { urlStr := tgtPath }
    TotalCount := totalObjects
    TotalSize := totalBytes }

/-- The Create-with-size-zero branch of the watchMirror event loop,
translated step by step. The collaborator outcomes are parameters: client
construction for the source and the target, the follow-up stat of the
source, the existence probe of the target (none standing for a successful
probe, meaning the destination exists) and the upload outcome for the
doMirror call at the end of the queueing branch. Every branch that fails
sends the event item with the error on the status channel; a vanished
source is not dropped. -/
def watchCreateZero (isForce isFake : Bool) (uploadErr : Option ProbeError)
    (aliasedPath targetPath : String)
    (newClientSrcErr : Option ProbeError)
    (statSrcRes : Except ProbeError ClientContent)
    (newClientTgtErr : Option ProbeError)
    (statTgtRes : Option ProbeError)
    (totalObjects totalBytes : Int)
    (u : URLs) : WatchStepResult :=
  match newClientSrcErr with
  | some e => { sent := [u.WithError (some e)] }
  | none =>
    match statSrcRes with
    | .error e => { sent := [u.WithError (some e)], io := [.statSrc aliasedPath] }
    | .ok _ =>
      match newClientTgtErr with
      | some e => { sent := [u.WithError (some e)], io := [.statSrc aliasedPath], loopEnded := true }
      | none =>
        let queued : List TransferAction → WatchStepResult := fun probes =>
          let uq := { u with TotalCount := totalObjects, TotalSize := totalBytes }
          match cmdDoMirror isFake uploadErr uq with
          | some r => { sent := [r.ret], mirrored := true, io := probes ++ r.io }
          | none => { io := probes, panicked := true }
        if !isForce then
          match statTgtRes with
          | none => { io := [.statSrc aliasedPath, .statTgt targetPath] }
          | some _ => queued [.statSrc aliasedPath, .statTgt targetPath]
        else
          queued [.statSrc aliasedPath]

/-- The Remove branch of the watchMirror event loop: the delete work item
is built and handed to doRemove only when the target content is present and
both the remove and force flags are set; otherwise the event is dropped
without any send or operation. -/
def watchRemoveStep (isRemove isForce isFake : Bool) (removeRes : Option ProbeError)
    (u : URLs) : WatchStepResult :=
  if u.TargetContent.isSome && isRemove && isForce then
    match cmdDoRemove isFake removeRes u with
    | some r => { sent := [r.ret], removed := true, io := r.io }
    | none => { panicked := true }
  else
    {}

/-- Work item of the legacy engine in src/mirror-main.go, after the fields
its doMirror reads: an optional source content, the list of target contents
and an optional error. -/
structure MirrorURLsLegacy where
  SourceContent : Option ClientContent := none
  TargetContents : List ClientContent := []
  Error : Option ProbeError := none
deriving Repr, DecidableEq, BEq

/-- Concrete type behind the dynamically typed progressReader value of the
legacy engine: either the interactive progress bar (barSend) or the silent
accounter. -/
inductive ProgressReader where
  | bar
  | accounter
deriving Repr, DecidableEq, BEq

/-- The progress reader doMirrorSession constructs: the progress bar in the
default display mode and the accounter when the quiet or the JSON global
flag is set. -/
def sessionProgressReader (quiet json : Bool) : ProgressReader :=
  if !quiet && !json then .bar else .accounter

/-- Result of one legacy doMirror call: the items sent on the status
channel, the transfer operations performed, the progress surface operations
issued, whether a failed type assertion or nil dereference panicked the
goroutine, and whether the admission-gate slot was released and the wait
group notified. The two deferred statements of the source run on every
exit, panics included, so released and wgDone are true on every path. -/
structure LegacyMirrorResult where
  statusSent : List MirrorURLsLegacy := []
  io : List TransferAction := []
  progressOps : List StatusAction := []
  panicked : Bool := false
  released : Bool := true
  wgDone : Bool := true
deriving Repr, DecidableEq, BEq

/-- The legacy doMirror, translated branch by branch. Collaborator outcomes
are parameters: getSource yields a length or an error, and putTargets an
optional error. An item already carrying an error is traced and forwarded
with no operation. In the default display mode the progress bar type
assertion runs on the reader; a reader that is not the bar fails it, which
is the panicked result. Both deferred statements, the admission-gate
release and the wait-group notification, run on every path. -/
def legacyDoMirror (quiet json : Bool) (getSourceRes : Except ProbeError Int)
    (putTargetsRes : Option ProbeError) (reader : ProgressReader)
    (s : MirrorURLsLegacy) : LegacyMirrorResult :=
  match s.Error with
  | some e => { statusSent := [{ s with Error := some e.traceAnn }] }
  | none =>
    match s.SourceContent with
    | none => { panicked := true }
    | some sc =>
      if !quiet && !json && !(reader == .bar) then
        { panicked := true }
      else
        match getSourceRes with
        | .error e =>
          { statusSent := [{ s with Error := some e.traceAnn }]
            io := [.getSrc sc.Name]
            progressOps := if !quiet && !json then [.errorGet 0] else [] }
        | .ok length =>
          let targetNames := s.TargetContents.map (fun t => t.Name)
          match putTargetsRes with
          | some e =>
            { statusSent := [{ s with Error := some e.traceAnn }]
              io := [.getSrc sc.Name, .putTgts targetNames length]
              progressOps := if !quiet && !json then [.errorPut length] else [] }
          | none =>
            { statusSent := [{ s with Error := none }]
              io := [.getSrc sc.Name, .putTgts targetNames length] }

/-- The legacy doMirrorFake, translated literally: when neither the debug
nor the JSON global flag is set, the progress bar type assertion runs on
the reader and its Progress method advances by the source content size.
A reader that is not the bar fails the assertion and a missing source
content is a nil dereference; both are the none result. With the debug or
JSON flag set nothing happens. -/
def doMirrorFake (debug json : Bool) (reader : ProgressReader)
    (s : MirrorURLsLegacy) : Option (List StatusAction) :=
  if !debug && !json then
    match reader with
    | .bar =>
      match s.SourceContent with
      | some sc => some [.addProgress sc.Size]
      | none => none
    | .accounter => none
  else
    some []

/-- Capacity of the legacy admission-gate channel mirrorQueue, after the
make call of doMirrorSession: the maximum of the processor count minus one
and one. -/
def mirrorQueueCap (numCPU : Nat) : Nat :=
  max (numCPU - 1) 1

/-- Events of the admission gate: a producer acquiring a slot before
spawning a mirror goroutine, and a finishing goroutine releasing its
slot. -/
inductive SchedEvent where
  | acquire
  | release
deriving Repr, DecidableEq, BEq

/-- Trace semantics of the bounded admission-gate channel: an acquire is a
send that can complete only while a slot is free, a release is a receive
that can complete only while a slot is held. Traces that would overfill or
underflow the channel cannot happen and yield none. The result is the
number of held slots after the trace. -/
def schedRun (cap : Nat) : List SchedEvent → Nat → Option Nat
  | [], n => some n
  | .acquire :: rest, n => if n < cap then schedRun cap rest (n + 1) else none
  | .release :: rest, n => if 0 < n then schedRun cap rest (n - 1) else none

/-- Header of the legacy session file: command arguments, aggregate totals
and the last-completed marker. -/
structure SessionHeader where
  CommandArgs : List String := []
  TotalBytes : Int := 0
  TotalObjects : Int := 0
  LastCopied : String := ""
deriving Repr, DecidableEq, BEq

/-- A legacy session: its header and the data file of prepared work
items. -/
structure SessionV2 where
  header : SessionHeader := {}
  data : List MirrorURLsLegacy := []
deriving Repr, DecidableEq, BEq

/-- Event received by the preparation select loop: a prepared item from the
URL channel or the interrupt trap. -/
inductive PrepEvent where
  | url (u : MirrorURLsLegacy)
  | trap
deriving Repr, DecidableEq, BEq

/-- Outcome of the preparation phase: the interrupt branch deletes the
session and exits the process, the normal end saves the session with the
accumulated totals, and a nil dereference inside the loop is a panic. -/
inductive PrepOutcome where
  | deletedExit
  | saved (s : SessionV2)
  | panicked
deriving Repr, DecidableEq, BEq

/-- The select loop of doPrepareMirrorURLs: error items are reported and
skipped, empty items are skipped (the isEmpty test of the legacy struct
reads the size through the source content pointer, so a source-less
non-empty item panics), remaining items are appended to the session data
file and counted, and the trap branch deletes the session and exits. When
the channel is exhausted the totals are stored and the session is saved. -/
def prepFold (session : SessionV2) (totalBytes : Int) (totalObjects : Int)
    (dataAcc : List MirrorURLsLegacy) : List PrepEvent → PrepOutcome
  | [] =>
    .saved { session with
      header := { session.header with TotalBytes := totalBytes, TotalObjects := totalObjects }
      data := dataAcc }
  | .trap :: _ => .deletedExit
  | .url u :: rest =>
    match u.Error with
    | some _ => prepFold session totalBytes totalObjects dataAcc rest
    | none =>
      match u.SourceContent with
      | none =>
        if u.TargetContents.isEmpty then
          prepFold session totalBytes totalObjects dataAcc rest
        else
          .panicked
      | some sc =>
        if sc.Size = 0 ∧ u.TargetContents.isEmpty then
          prepFold session totalBytes totalObjects dataAcc rest
        else
          prepFold session (totalBytes + sc.Size) (totalObjects + 1) (dataAcc ++ [u]) rest

/-- Event received by the legacy status-monitor select loop: a status item,
the closing of the status channel, or the interrupt trap. -/
inductive StatusEvent where
  | status (u : MirrorURLsLegacy)
  | closed
  | trap
deriving Repr, DecidableEq, BEq

/-- Outcome of the legacy status-monitor loop: a normal return after the
status channel closes, an exit through gracefulSessionSave carrying the
session it persisted, or a panic on a source-less item. -/
inductive MirrorRunOutcome where
  | finished (s : SessionV2)
  | savedExit (s : SessionV2)
  | panicked
deriving Repr, DecidableEq, BEq

/-- The status-monitor goroutine of doMirrorSession. A successful item
stores its source name as the last-completed marker and saves the session;
an errored item is reported, and network-class errors persist the session
through gracefulSessionSave; the trap branch persists the session through
gracefulSessionSave. Both report paths read the source name through the
source content pointer, so a source-less item panics. gracefulSessionSave
itself is not in the tree and is modelled from the spec: interruption
persists the session, last-completed marker and totals included, and
exits. -/
def statusFold (session : SessionV2) : List StatusEvent → MirrorRunOutcome
  | [] => .finished session
  | .closed :: _ => .finished session
  | .trap :: _ => .savedExit session
  | .status u :: rest =>
    match u.SourceContent with
    | none => .panicked
    | some sc =>
      match u.Error with
      | none =>
        statusFold { session with header := { session.header with LastCopied := sc.Name } } rest
      | some e =>
        if e.isNet then .savedExit session else statusFold session rest

/-- Modelled from the spec: the resume predicate built by isCopiedFactory,
whose defining file is not in the tree. Given the last-completed marker,
replaying the original work item list must skip every item up to and
including the marker and process only subsequent items; an empty marker
skips nothing. Each name is paired with true when the resume loop replays
it as a fake completion. -/
def resumeMarks (marker : String) (copied : Bool) : List String → List (String × Bool)
  | [] => []
  | n :: rest =>
    if marker = "" then (n, false) :: resumeMarks marker copied rest
    else if copied then (n, true) :: resumeMarks marker (copied && !(n == marker)) rest
    else (n, false) :: resumeMarks marker false rest

/-- Source names of a list of legacy work items, as the resume scanner
reads them; a missing source content reads through a nil pointer and has no
name, so the defined case applies to well-formed session data. -/
def legacyNames (items : List MirrorURLsLegacy) : List String :=
  items.map (fun u => (u.SourceContent.map (fun sc => sc.Name)).getD "")

/-- Helper: a run of the admission-gate channel that starts within capacity
ends within capacity. -/
theorem schedRun_bounded (cap : Nat) :
    ∀ (evs : List SchedEvent) (m n : Nat), m ≤ cap →
      schedRun cap evs m = some n → n ≤ cap := by
  intro evs
  induction evs with
  | nil =>
    intro m n hm h
    simp only [schedRun, Option.some.injEq] at h
    omega
  | cons e rest ih =>
    intro m n hm h
    cases e with
    | acquire =>
      simp only [schedRun] at h
      by_cases hlt : m < cap
      · simp only [hlt, if_true] at h
        exact ih (m + 1) n (by omega) h
      · simp [hlt] at h
    | release =>
      simp only [schedRun] at h
      by_cases hlt : 0 < m
      · simp only [hlt, if_true] at h
        exact ih (m - 1) n (by omega) h
      · simp [hlt] at h

/-- Helper: once the resume predicate has passed the marker it marks every
remaining item as to-be-processed. -/
theorem resumeMarks_after (marker : String) (hm : marker ≠ "") :
    ∀ l : List String, resumeMarks marker false l = l.map fun n => (n, false) := by
  intro l
  induction l with
  | nil => rfl
  | cons a rest ih => simp [resumeMarks, hm, ih]

/-- C1: the claim says a differs-in-size entry yields an overwrite-not-
allowed error item when force is unset and a copy item when force is set.
The generator actually emits nothing for a differs-in-size entry under
every flag combination: in the first skip condition of deltaSourceTargets
the conjunctions bind tighter than the disjunction, so the size-difference
disjunct is tested alone and always triggers the skip, leaving the
overwrite-error branch below it unreachable. -/
theorem c1_differs_in_size_always_skipped
    (sourceURL targetURL sourceAlias targetAlias : String)
    (isForce isFake isRemove : Bool) (sc : ClientContent) (su tu : String) :
    deltaStep sourceURL targetURL sourceAlias targetAlias isForce isFake isRemove
      (.item { dType := .differInSize, sourceContent := sc,
               sourceURLStr := su, targetURLStr := tu }) = none := by
  cases isForce <;> cases isFake <;> cases isRemove <;> rfl

/-- C2 counterexample: a differs-in-time entry with force, fake and remove
all unset is turned into a copy work item by the generator, refuting the
claim that a time-only difference is never copied. -/
theorem c2_counterexample :
    deltaStep "src/" "tgt/" "" "" false false false
      (.item { dType := .differInTime
               sourceContent := { urlStr := "src/a.txt", Size := 10, Name := "a.txt" }
               sourceURLStr := "src/a.txt", targetURLStr := "tgt/a.txt" })
      = some { SourceContent := some { urlStr := "src/a.txt", Size := 10, Name := "a.txt" }
               TargetContent := some { urlStr := "tgt/a.txt" } } := by
  rfl

/-- C2 amended: an identical entry is skipped under every flag combination,
and a differs-in-time entry is skipped when both remove and force are set
but is emitted as a copy work item under every other flag combination. -/
theorem c2_time_only_and_identical
    (sourceURL targetURL sourceAlias targetAlias : String)
    (isForce isFake isRemove : Bool) (sc : ClientContent) (su tu : String) :
    deltaStep sourceURL targetURL sourceAlias targetAlias isForce isFake isRemove
        (.item { dType := .differInNone, sourceContent := sc,
                 sourceURLStr := su, targetURLStr := tu }) = none
    ∧ deltaStep sourceURL targetURL sourceAlias targetAlias isForce isFake isRemove
        (.item { dType := .differInTime, sourceContent := sc,
                 sourceURLStr := su, targetURLStr := tu })
      = (if isRemove && isForce then none
         else some (deltaCopyItem sourceURL targetURL sourceAlias targetAlias sc)) := by
  cases isForce <;> cases isFake <;> cases isRemove <;> exact ⟨rfl, rfl⟩

/-- C6: a differs-in-type entry is emitted as an error work item carrying
the invalid-target error against the target URL, under every combination of
the force, fake and remove flags; it never becomes a copy or a delete. -/
theorem c6_differs_in_type_always_error
    (sourceURL targetURL sourceAlias targetAlias : String)
    (isForce isFake isRemove : Bool) (sc : ClientContent) (su tu : String) :
    deltaStep sourceURL targetURL sourceAlias targetAlias isForce isFake isRemove
      (.item { dType := .differInType, sourceContent := sc,
               sourceURLStr := su, targetURLStr := tu })
      = some { Error := some { kind := .invalidTarget tu } } := by
  cases isForce <;> cases isFake <;> cases isRemove <;> rfl

/-- C10: the isEmpty method on mirrorURLs completes without a nil
dereference exactly when the source content is present or all three of
source content, target content and error are absent; a delete-only item and
an error-only item both dereference the nil source content pointer. -/
theorem c10_isEmpty_safety :
    (∀ m : MirrorURLs, (m.isEmpty).isSome = true ↔
        (m.SourceContent.isSome = true
          ∨ (m.SourceContent = none ∧ m.TargetContent = none ∧ m.Error = none)))
    ∧ (∀ m : MirrorURLs, m.SourceContent = none → m.TargetContent.isSome = true →
        m.isEmpty = none)
    ∧ (∀ m : MirrorURLs, m.SourceContent = none → m.TargetContent = none →
        m.Error.isSome = true → m.isEmpty = none) := by
  refine ⟨?_, ?_, ?_⟩
  · intro m
    obtain ⟨sa, sc, ta, tc, er⟩ := m
    cases sc <;> cases tc <;> cases er <;>
      (simp [MirrorURLs.isEmpty]; try (split <;> simp))
  · intro m hs ht
    obtain ⟨sa, sc, ta, tc, er⟩ := m
    cases sc <;> cases tc <;> simp_all [MirrorURLs.isEmpty]
  · intro m hs ht he
    obtain ⟨sa, sc, ta, tc, er⟩ := m
    cases sc <;> cases tc <;> cases er <;> simp_all [MirrorURLs.isEmpty]

/-- C10 witness: a delete-only item and an error-only item evaluated
through the safety theorem. -/
theorem c10_isEmpty_safety_witness :
    MirrorURLs.isEmpty { TargetContent := some { urlStr := "t" } } = none
    ∧ MirrorURLs.isEmpty { Error := some { kind := .statFailed "p" } } = none :=
  ⟨c10_isEmpty_safety.2.1 { TargetContent := some { urlStr := "t" } } rfl rfl,
   c10_isEmpty_safety.2.2 { Error := some { kind := .statFailed "p" } } rfl rfl rfl⟩

/-- C4: a watcher Remove event is handed to doRemove exactly when the
target content is present and both the remove and force flags are set; a
removal operation actually reaches the target exactly when additionally the
fake flag is unset; and the one-shot dispatch of startMirror routes an item
to doRemove only for a source-less item with a target content under both
flags. Under every other flag combination no remove operation is
performed. -/
theorem c4_remove_gated_by_remove_and_force
    (isRemove isForce isFake : Bool) (removeRes : Option ProbeError) (u : URLs) :
    ((watchRemoveStep isRemove isForce isFake removeRes u).removed
        = (u.TargetContent.isSome && isRemove && isForce))
    ∧ ((watchRemoveStep isRemove isForce isFake removeRes u).io.any TransferAction.isRemoval
        = (u.TargetContent.isSome && isRemove && isForce && !isFake))
    ∧ (startMirrorDispatch isRemove isForce u = .toRemove ↔
        (u.SourceContent = none ∧ u.TargetContent.isSome = true
          ∧ isRemove = true ∧ isForce = true)) := by
  obtain ⟨sa, sc, ta, tc, cnt, sz, er⟩ := u
  cases sc <;> cases tc <;> cases isRemove <;> cases isForce <;> cases isFake <;>
    simp [watchRemoveStep, cmdDoRemove, startMirrorDispatch, TransferAction.isRemoval,
      URLs.WithError]

/-- C3 counterexample: a Create event of size zero whose follow-up stat of
the source fails is not dropped silently; the handler sends the event item
carrying the stat error on the status channel, and the status goroutine
surfaces a failed-to-copy error line for it. -/
theorem c3_counterexample :
    (watchCreateZero true false none "play/bucket/obj" "tgt/obj" none
        (.error { kind := .statFailed "play/bucket/obj" }) none none 0 0
        (mkCreateMirrorURL "play" "tgt" "play/bucket/obj" "tgt/obj")).sent
      = [(mkCreateMirrorURL "play" "tgt" "play/bucket/obj" "tgt/obj").WithError
          (some { kind := .statFailed "play/bucket/obj" })]
    ∧ startStatusStep ((mkCreateMirrorURL "play" "tgt" "play/bucket/obj" "tgt/obj").WithError
          (some { kind := .statFailed "play/bucket/obj" }))
      = some [.errorLineCopy "play/bucket/obj"] :=
  ⟨rfl, rfl⟩

/-- C3 amended: on a Create event of size zero whose follow-up stat of the
source fails, the handler performs only the stat probe, does not invoke
doMirror and attempts no copy, and sends the event item with the stat error
on the status channel, where the status goroutine surfaces a
failed-to-copy error line against the event path. -/
theorem c3_stat_failure_sends_error_item
    (isForce isFake : Bool) (uploadErr : Option ProbeError)
    (aliasedPath targetPath : String) (e : ProbeError)
    (newClientTgtErr : Option ProbeError) (statTgtRes : Option ProbeError)
    (totalObjects totalBytes : Int)
    (sourceAlias targetAlias srcPath tgtPath : String) :
    watchCreateZero isForce isFake uploadErr aliasedPath targetPath none
        (.error e) newClientTgtErr statTgtRes totalObjects totalBytes
        (mkCreateMirrorURL sourceAlias targetAlias srcPath tgtPath)
      = { sent := [(mkCreateMirrorURL sourceAlias targetAlias srcPath tgtPath).WithError (some e)]
          io := [.statSrc aliasedPath] }
    ∧ startStatusStep
        ((mkCreateMirrorURL sourceAlias targetAlias srcPath tgtPath).WithError (some e))
      = some [.errorLineCopy srcPath] :=
  ⟨rfl, rfl⟩

/-- C7: a work item that already carries an error when it reaches the
scheduler triggers no transfer operation in either engine; the legacy
doMirror sends it to the status channel and the newer doMirror returns it
to the status sink, in both cases with the payload untouched and the same
underlying error carrying one more trace annotation (Trace returns the
same error object in the source). -/
theorem c7_error_items_forwarded_without_io
    (quiet json : Bool) (getSourceRes : Except ProbeError Int)
    (putTargetsRes : Option ProbeError) (reader : ProgressReader)
    (sl : MirrorURLsLegacy) (el : ProbeError)
    (isFake : Bool) (uploadErr : Option ProbeError) (sc : URLs) (ec : ProbeError)
    (hl : sl.Error = some el) (hc : sc.Error = some ec) :
    legacyDoMirror quiet json getSourceRes putTargetsRes reader sl
        = { statusSent := [{ sl with Error := some el.traceAnn }] }
    ∧ cmdDoMirror isFake uploadErr sc = some { ret := sc.WithError (some ec.traceAnn) }
    ∧ el.traceAnn.kind = el.kind ∧ ec.traceAnn.kind = ec.kind := by
  refine ⟨?_, ?_, rfl, rfl⟩
  · simp [legacyDoMirror, hl]
  · simp [cmdDoMirror, hc]

/-- C7 witness: a concrete errored item put through both schedulers. -/
theorem c7_error_items_forwarded_without_io_witness :
    legacyDoMirror false false (.ok 0) none .bar
        { Error := some { kind := .transferFailed "x" } }
      = { statusSent := [{ ({ Error := some { kind := .transferFailed "x" } } : MirrorURLsLegacy)
            with Error := some (ProbeError.traceAnn { kind := .transferFailed "x" }) }] }
    ∧ cmdDoMirror false none { Error := some { kind := .transferFailed "y" } }
      = some { ret := ({ Error := some { kind := .transferFailed "y" } } : URLs).WithError (some (ProbeError.traceAnn { kind := .transferFailed "y" })) }
    ∧ (ProbeError.traceAnn { kind := .transferFailed "x" }).kind = .transferFailed "x"
    ∧ (ProbeError.traceAnn { kind := .transferFailed "y" }).kind = .transferFailed "y" :=
  c7_error_items_forwarded_without_io false false (.ok 0) none .bar
    { Error := some { kind := .transferFailed "x" } } { kind := .transferFailed "x" }
    false none { Error := some { kind := .transferFailed "y" } } { kind := .transferFailed "y" }
    rfl rfl

/-- C8: in the legacy engine the admission gate bounds the number of
in-flight transfer goroutines by the capacity of the mirrorQueue channel,
the maximum of the processor count minus one and one: every reachable slot
count of the gate respects the bound, and every exit path of the legacy
doMirror, error paths and panics included, releases its slot and notifies
the wait group through the deferred statements. -/
theorem c8_admission_gate_bound :
    (∀ (numCPU : Nat) (evs : List SchedEvent) (n : Nat),
        schedRun (mirrorQueueCap numCPU) evs 0 = some n → n ≤ mirrorQueueCap numCPU)
    ∧ (∀ (quiet json : Bool) (getSourceRes : Except ProbeError Int)
        (putTargetsRes : Option ProbeError) (reader : ProgressReader)
        (s : MirrorURLsLegacy),
        (legacyDoMirror quiet json getSourceRes putTargetsRes reader s).released = true
        ∧ (legacyDoMirror quiet json getSourceRes putTargetsRes reader s).wgDone = true) := by
  constructor
  · intro numCPU evs n h
    exact schedRun_bounded (mirrorQueueCap numCPU) evs 0 n (Nat.zero_le _) h
  · intro quiet json getSourceRes putTargetsRes reader s
    obtain ⟨sc, tcs, er⟩ := s
    cases er <;> cases sc <;> cases getSourceRes <;> cases putTargetsRes <;>
      cases reader <;> cases quiet <;> cases json <;>
      exact ⟨rfl, rfl⟩

/-- C8 witness: a two-acquire trace on a four-processor gate stays within
the bound. -/
theorem c8_admission_gate_bound_witness : (2 : Nat) ≤ mirrorQueueCap 4 :=
  c8_admission_gate_bound.1 4 [.acquire, .acquire] 2 rfl

/-- C9: with the quiet flag set and the JSON and debug flags unset, the
session constructs the accounter as progress reader while doMirrorFake
guards its progress-bar type assertion only by the debug and JSON flags, so
the assertion runs against the accounter and fails, a panic; in the default
display mode, with the bar as reader, the same call succeeds and advances
progress by the source size. -/
theorem c9_doMirrorFake_panics_in_quiet_mode :
    doMirrorFake false false (sessionProgressReader true false)
        { SourceContent := some { urlStr := "a", Size := 10, Name := "a" } } = none
    ∧ doMirrorFake false false (sessionProgressReader false false)
        { SourceContent := some { urlStr := "a", Size := 10, Name := "a" } }
      = some [.addProgress 10] :=
  ⟨rfl, rfl⟩

/-- C5 counterexample: an interrupt that arrives during the URL-preparation
phase of a fresh session run deletes the session and exits instead of
persisting it, so not every interrupt of a session-based run persists the
session. -/
theorem c5_counterexample :
    prepFold {} 0 0 [] [.trap] = .deletedExit :=
  rfl

/-- C5 amended: an interrupt during the URL-preparation phase deletes the
session and exits; an interrupt during the mirroring phase persists the
session with its current last-completed marker and totals before exit;
on relaunch the resume predicate replays exactly the items up to and
including the marker as fake completions and processes the rest; and a
fake completion in the default display mode only advances the progress
accounting by the item size, performing no transfer. -/
theorem c5_interrupt_persistence
    (session : SessionV2) (totalBytes totalObjects : Int)
    (dataAcc : List MirrorURLsLegacy) (prepRest : List PrepEvent)
    (statusRest : List StatusEvent)
    (marker : String) (l1 l2 : List String)
    (s : MirrorURLsLegacy) (sc : ClientContent)
    (hm : marker ≠ "") (hnot : marker ∉ l1) (hs : s.SourceContent = some sc) :
    prepFold session totalBytes totalObjects dataAcc (.trap :: prepRest) = .deletedExit
    ∧ statusFold session (.trap :: statusRest) = .savedExit session
    ∧ resumeMarks marker true (l1 ++ marker :: l2)
        = (l1.map fun n => (n, true)) ++ (marker, true) :: (l2.map fun n => (n, false))
    ∧ doMirrorFake false false .bar s = some [.addProgress sc.Size] := by
  refine ⟨rfl, rfl, ?_, ?_⟩
  · induction l1 with
    | nil => simp [resumeMarks, hm, resumeMarks_after marker hm]
    | cons a rest ih =>
      have ha : marker ≠ a := fun h => hnot (h ▸ List.mem_cons_self a rest)
      have hrest : marker ∉ rest := fun h => hnot (List.mem_cons_of_mem a h)
      have hbeq : (a == marker) = false := beq_eq_false_iff_ne.mpr (Ne.symm ha)
      simp [resumeMarks, hm, hbeq, ih hrest]
  · simp [doMirrorFake, hs]

/-- C5 witness: a concrete resume plan around the marker b and a concrete
fake completion. -/
theorem c5_interrupt_persistence_witness :
    prepFold {} 0 0 [] [.trap] = PrepOutcome.deletedExit
    ∧ statusFold {} [.trap] = .savedExit {}
    ∧ resumeMarks "b" true ["a", "b", "c"] = [("a", true), ("b", true), ("c", false)]
    ∧ doMirrorFake false false .bar { SourceContent := some { Size := 7 } }
        = some [.addProgress 7] :=
  c5_interrupt_persistence {} 0 0 [] [] [] "b" ["a"] ["c"]
    { SourceContent := some { Size := 7 } } { Size := 7 }
    (by decide) (by decide) rfl

end Mc
